import Mathlib

/-
Verification of the RTanks player-statistics bot (src/bot.py) against its
natural-language specification.

The presentation layer (command handlers, embeds, button views, statistics
display) is embedded from src/bot.py.  The acquisition core (the scraper's
cache, request deduplicator, fetcher retry loop and normalizer) is imported
by bot.py from a `scraper` module that is not part of the visible sources;
definitions for it are modelled from the spec and say so in their doc
comments.

Numbers are modelled with Nat and Rat; timestamps are seconds as Nat;
fallible operations return Option or are given explicit outcome types.
-/

/-! ## Data model -/

/-- Equipment lists of a player: owned turrets/hulls/protections and the
equipped sublists, exactly the six keys of the `equipment` dict that
bot.py reads (`turrets`, `hulls`, `protections`, `equipped_turrets`,
`equipped_hulls`, `equipped_protections`). -/
structure Equipment where
  turrets : List String
  hulls : List String
  protections : List String
  equipped_turrets : List String
  equipped_hulls : List String
  equipped_protections : List String
deriving DecidableEq, Repr

/-- Modelled from the spec: the fields the Parser extracts from a profile
page (spec section 4.3); `kd_source` is the page-supplied K/D value when the
page has one, `group_source` the page-supplied group. -/
structure ParsedFields where
  username : String
  clan : Option String
  is_online : Bool
  rank : String
  experience : Nat
  max_experience : Option Nat
  premium : Bool
  kills : Nat
  deaths : Nat
  kd_source : Option Rat
  gold_boxes : Nat
  group_source : Option String
  equipment : Equipment
deriving DecidableEq, Repr

/-- The canonical player record of spec section 3, the dict that bot.py's
embeds consume. -/
structure PlayerRecord where
  username : String
  clan : Option String
  is_online : Bool
  rank : String
  experience : Nat
  max_experience : Option Nat
  premium : Bool
  kills : Nat
  deaths : Nat
  kd_ratio : Rat
  gold_boxes : Nat
  group : String
  equipment : Equipment
deriving DecidableEq, Repr

/-! ## Normalizer (modelled from the spec, section 4.4) -/

/-- Rounding to two decimal places (round half up), used for the derived
K/D ratio. -/
def roundTo2 (q : Rat) : Rat := ((⌊q * 100 + 1 / 2⌋ : Int) : Rat) / 100

/-- Rounding to one decimal place (round half up), used by the botstats
success rate. -/
def roundTo1 (q : Rat) : Rat := ((⌊q * 10 + 1 / 2⌋ : Int) : Rat) / 10

/-- Modelled from the spec: the Normalizer caps each `equipped_*` list to
its owned counterpart, silently dropping an equipped item not found in the
owned list (spec section 4.4).  Owned lists are unchanged. -/
def capEquipped (e : Equipment) : Equipment :=
  { e with
    equipped_turrets := e.equipped_turrets.filter (fun x => decide (x ∈ e.turrets))
    equipped_hulls := e.equipped_hulls.filter (fun x => decide (x ∈ e.hulls))
    equipped_protections :=
      e.equipped_protections.filter (fun x => decide (x ∈ e.protections)) }

/-- Modelled from the spec: `normalize(ParsedFields) -> PlayerRecord`
(spec section 4.4).  `kd_ratio` is the page value when supplied, otherwise
`kills / max(deaths, 1)` rounded to 2 decimals; `group` defaults to the
"No Group" sentinel; equipment is capped by `capEquipped`. -/
def Scraper.normalize (p : ParsedFields) : PlayerRecord where
  username := p.username
  clan := p.clan
  is_online := p.is_online
  rank := p.rank
  experience := p.experience
  max_experience := p.max_experience
  premium := p.premium
  kills := p.kills
  deaths := p.deaths
  kd_ratio :=
    match p.kd_source with
    | some k => k
    | none => roundTo2 ((p.kills : Rat) / ((max p.deaths 1 : Nat) : Rat))
  gold_boxes := p.gold_boxes
  group := p.group_source.getD "No Group"
  equipment := capEquipped p.equipment

/-! ## Bot statistics (src/bot.py, botstats_command_handler, lines 339-366) -/

/-- The scraping counters bot.py keeps (`scraping_successes`,
`scraping_failures`, `total_scraping_time`); time is in seconds as a
rational. -/
structure BotStats where
  scraping_successes : Nat
  scraping_failures : Nat
  total_scraping_time : Rat
deriving DecidableEq, Repr

/-- Average scraping latency in milliseconds as computed by
`botstats_command_handler`: 0 unless `scraping_successes > 0`, else
`round((total_scraping_time / scraping_successes) * 1000, 2)`. -/
def avg_scraping_latency (s : BotStats) : Rat :=
  if s.scraping_successes > 0 then
    roundTo2 ((s.total_scraping_time / (s.scraping_successes : Rat)) * 1000)
  else 0

/-- Success rate in percent as computed by `botstats_command_handler`:
0 unless `scraping_successes + scraping_failures > 0`, else
`round((scraping_successes / total_scrapes) * 100, 1)`. -/
def success_rate (s : BotStats) : Rat :=
  let total := s.scraping_successes + s.scraping_failures
  if total > 0 then
    roundTo1 (((s.scraping_successes : Rat) / (total : Rat)) * 100)
  else 0

/-! ## Request deduplicator (modelled from the spec, sections 4.5 and 5) -/

/-- Python's `str.strip()`: drop whitespace from both ends, modelled on
the character list. -/
def pyStrip (s : String) : String :=
  String.mk (((s.data.dropWhile Char.isWhitespace).reverse.dropWhile
    Char.isWhitespace).reverse)

/-- Python's `str.lower()`, modelled as lowercasing each character. -/
def pyLower (s : String) : String := String.mk (s.data.map Char.toLower)

/-- Modelled from the spec: key normalization for cache and in-flight
bookkeeping — strip, then lowercase (spec section 4.5 step 1). -/
def normKey (u : String) : String := pyLower (pyStrip u)

/-- Modelled from the spec: the deduplicator's per-instant bookkeeping —
the keys with a registered `InFlightRequest` and the keys with a fresh
`CacheEntry`.  Keys are already normalized by `normKey`. -/
structure DedupState where
  inflight : List String
  fresh : List String
deriving DecidableEq, Repr

/-- Events of the deduplicator.  Only `start` begins a
Fetch+Parse+Normalize pipeline execution (an upstream fetch); `hit` and
`join` serve a lookup without any new fetch. -/
inductive DedupEvent where
  | hit (k : String)
  | join (k : String)
  | start (k : String)
  | settle (k : String) (stored : Bool)
  | expire (k : String)
deriving DecidableEq, Repr

/-- Modelled from the spec: one atomic step of the deduplicator (spec
section 4.5 algorithm, with section 5's requirement that the freshness
check and marker registration happen before any await).  A lookup on a
fresh key is a `hit`; a lookup on an in-flight key `join`s the shared
result; a `start` registers the in-flight marker and is allowed only when
the key is neither in flight nor fresh; `settle` unconditionally clears
the marker, adding a fresh entry when the result was stored; `expire`
drops a fresh entry at TTL expiry or eviction. -/
inductive DedupStep : DedupState → DedupEvent → DedupState → Prop where
  | hit {s : DedupState} {k : String} :
      k ∈ s.fresh → DedupStep s (DedupEvent.hit k) s
  | join {s : DedupState} {k : String} :
      k ∈ s.inflight → DedupStep s (DedupEvent.join k) s
  | start {s : DedupState} {k : String} :
      k ∉ s.inflight → k ∉ s.fresh →
      DedupStep s (DedupEvent.start k) (DedupState.mk (k :: s.inflight) s.fresh)
  | settle {s : DedupState} {k : String} {stored : Bool} :
      k ∈ s.inflight →
      DedupStep s (DedupEvent.settle k stored)
        (DedupState.mk (s.inflight.erase k)
          (if stored then k :: s.fresh else s.fresh))
  | expire {s : DedupState} {k : String} :
      DedupStep s (DedupEvent.expire k)
        (DedupState.mk s.inflight (s.fresh.erase k))

/-- States the deduplicator can be in, starting from the empty state. -/
inductive DedupReachable : DedupState → Prop where
  | init : DedupReachable (DedupState.mk [] [])
  | step {s : DedupState} {e : DedupEvent} {t : DedupState} :
      DedupReachable s → DedupStep s e t → DedupReachable t

/-- A deduplicator step never duplicates an in-flight key. -/
theorem dedupStep_nodup {s : DedupState} {e : DedupEvent} {t : DedupState}
    (hstep : DedupStep s e t) (h : s.inflight.Nodup) : t.inflight.Nodup := by
  cases hstep with
  | hit _ => exact h
  | join _ => exact h
  | start hni _ => exact List.Nodup.cons hni h
  | settle _ => exact List.Nodup.erase _ h
  | expire => exact h

/-! ## Fetcher retry loop and cache storage (modelled from the spec,
sections 4.2 and 4.5) -/

/-- Outcome of one HTTP attempt as the Fetcher classifies it: a parsed
profile page, an authoritative "no such player", or a transient failure
(timeout, connection error, HTTP 5xx). -/
inductive AttemptResult where
  | ok (page : ParsedFields)
  | notFoundHttp
  | transient
deriving DecidableEq, Repr

/-- Terminal outcome of the whole Fetch+Parse+Normalize pipeline. -/
inductive PipelineOutcome where
  | success (record : PlayerRecord)
  | notFound
  | unavailable
deriving DecidableEq, Repr

/-- Modelled from the spec: retry bound of the Fetcher (design default,
2 retries → 3 attempts, spec section 4.2). -/
def maxRetries : Nat := 2

/-- Modelled from the spec: the Fetcher's retry loop over the successive
attempt results, with at most `fuel` attempts.  Success parses and
normalizes, HTTP 404 is terminal `notFound` (never retried), a transient
failure is retried until the attempts are exhausted, which surfaces
`unavailable`. -/
def fetchAttempts : Nat → List AttemptResult → PipelineOutcome
  | 0, _ => PipelineOutcome.unavailable
  | _ + 1, [] => PipelineOutcome.unavailable
  | fuel + 1, a :: rest =>
    match a with
    | AttemptResult.ok page => PipelineOutcome.success (Scraper.normalize page)
    | AttemptResult.notFoundHttp => PipelineOutcome.notFound
    | AttemptResult.transient => fetchAttempts fuel rest

/-- What a cache entry records: a found player or an authoritative
not-found. -/
inductive CachedValue where
  | found (record : PlayerRecord)
  | notFound
deriving DecidableEq, Repr

/-- A cache entry: a value plus the absolute time it expires. -/
structure CacheEntry where
  value : CachedValue
  expires_at : Nat
deriving DecidableEq, Repr

/-- Modelled from the spec: TTL of a successful record (the spec leaves
the exact value open; only `notFoundTTL < cacheTTL` matters). -/
def cacheTTL : Nat := 600

/-- Modelled from the spec: the shorter TTL used for not-found results. -/
def notFoundTTL : Nat := 60

/-- Look up the raw entry stored for a key. -/
def cacheFind (cache : List (String × CacheEntry)) (k : String) :
    Option CacheEntry :=
  (cache.find? (fun e => e.1 == k)).map (fun e => e.2)

/-- Modelled from the spec: a cached value is returned only while fresh
(`now < expires_at`); a stale or absent entry is a miss. -/
def cacheLookup (now : Nat) (cache : List (String × CacheEntry))
    (k : String) : Option CachedValue :=
  match cacheFind cache k with
  | some e => if now < e.expires_at then some e.value else none
  | none => none

/-- Modelled from the spec: how the deduplicator stores a settled pipeline
outcome (spec section 4.5, steps 4-5).  A success is cached for `cacheTTL`,
a not-found is cached for the shorter `notFoundTTL`, and an unavailable
outcome is never cached — the cache is returned unchanged. -/
def storeResult (cache : List (String × CacheEntry)) (k : String)
    (now : Nat) : PipelineOutcome → List (String × CacheEntry)
  | PipelineOutcome.success r =>
      (k, CacheEntry.mk (CachedValue.found r) (now + cacheTTL)) ::
        cache.eraseP (fun e => e.1 == k)
  | PipelineOutcome.notFound =>
      (k, CacheEntry.mk CachedValue.notFound (now + notFoundTTL)) ::
        cache.eraseP (fun e => e.1 == k)
  | PipelineOutcome.unavailable => cache

/-- Modelled from the spec: what `get_player_data` answers from the cache
alone.  `some (some r)` is a fresh found record, `some none` is a fresh
not-found (the caller gets null with no network call), `none` is a miss
that would go to the fetch pipeline. -/
def cachedReply (now : Nat) (cache : List (String × CacheEntry))
    (k : String) : Option (Option PlayerRecord) :=
  match cacheLookup now cache k with
  | some (CachedValue.found r) => some (some r)
  | some CachedValue.notFound => some none
  | none => none

/-! ## Command reply rendering (src/bot.py, player_command_handler lines
157-200 and compare_command_handler lines 252-337) -/

/-- Result of one `get_player_data` call as the handlers observe it: a
record, a falsy/None result, or a raised exception. -/
inductive FetchResult where
  | ok (record : PlayerRecord)
  | nullResult
  | raised
deriving DecidableEq, Repr

/-- The user-visible replies the handlers send, identified by which embed
is built. -/
inductive Reply where
  | playerEmbed (record : PlayerRecord)
  | notFoundMsg (username : String)
  | unavailableMsg
  | compareEmbed (record1 record2 : PlayerRecord)
  | bothNotFoundMsg (username1 username2 : String)
  | invalidComparisonMsg
deriving DecidableEq, Repr

/-- `player_command_handler` (bot.py lines 157-200): a falsy result sends
the red "Player Not Found" embed, a record sends the player embed, and a
raised exception is caught and sends the orange "might be temporarily
unavailable" embed. -/
def player_command_reply (username : String) : FetchResult → Reply
  | FetchResult.ok r => Reply.playerEmbed r
  | FetchResult.nullResult => Reply.notFoundMsg username
  | FetchResult.raised => Reply.unavailableMsg

/-- `compare_command_handler` after its `asyncio.gather` (bot.py lines
280-317): `return_exceptions=True` delivers per-player exceptions as
values, each is logged and replaced by `None`, and the reply is chosen
from the two possibly-None results exactly as the if/elif chain does. -/
def compare_gather_reply (p1 p2 : String) (r1 r2 : FetchResult) : Reply :=
  let d1 : Option PlayerRecord :=
    match r1 with
    | FetchResult.ok r => some r
    | _ => none
  let d2 : Option PlayerRecord :=
    match r2 with
    | FetchResult.ok r => some r
    | _ => none
  match d1, d2 with
  | none, none => Reply.bothNotFoundMsg p1 p2
  | none, some _ => Reply.notFoundMsg p1
  | some _, none => Reply.notFoundMsg p2
  | some a, some b => Reply.compareEmbed a b

/-- A concrete record used to exercise the reply functions. -/
def samplePlayer : PlayerRecord :=
  PlayerRecord.mk "alice" none true "Major" 0 none false 0 0 0 0 "No Group"
    (Equipment.mk [] [] [] [] [] [])

/-- Outcome of the compare command's username pre-check (bot.py lines
260-271), paired with the number of `get_player_data` calls issued. -/
inductive CompareAction where
  | rejectedSameUser
  | fetchBoth (u1 u2 : String)
deriving DecidableEq, Repr

/-- The compare handler's pre-check: strip both usernames, send the
"Invalid Comparison" embed and return when the lowercased forms are equal,
else fetch both players concurrently. -/
def compare_precheck (player1 player2 : String) : CompareAction × Nat :=
  let p1 := pyStrip player1
  let p2 := pyStrip player2
  if pyLower p1 == pyLower p2 then (CompareAction.rejectedSameUser, 0)
  else (CompareAction.fetchBoth p1 p2, 2)

/-! ## Compact player embed (src/bot.py, _create_player_embed lines
509-535, non-expanded branch) -/

/-- The "Turret" line of the compact embed: present exactly when some
turret is equipped, showing `equipped_turrets[0]`. -/
def turret_line (e : Equipment) : Option String :=
  match e.equipped_turrets with
  | [] => none
  | x :: _ => some ("**Turret:** " ++ x)

/-- The "Hull" line of the compact embed, showing `equipped_hulls[0]`. -/
def hull_line (e : Equipment) : Option String :=
  match e.equipped_hulls with
  | [] => none
  | x :: _ => some ("**Hull:** " ++ x)

/-- The "Paints" line of the compact embed, showing
`equipped_protections[:3]` joined by ", ". -/
def paints_line (e : Equipment) : Option String :=
  match e.equipped_protections with
  | [] => none
  | _ :: _ =>
      some ("**Paints:** " ++
        String.intercalate ", " (e.equipped_protections.take 3))

/-- All equipment lines of the compact embed, in order, with absent lines
omitted. -/
def compact_equipment_lines (e : Equipment) : List String :=
  (turret_line e).toList ++ (hull_line e).toList ++ (paints_line e).toList

/-! ## Equipment toggle button (src/bot.py, PlayerEquipmentView lines
23-111) -/

/-- The state the button view closes over: the invoking user's id, the
current expansion state and the creation time in seconds. -/
structure ViewState where
  user_id : Nat
  expanded : Bool
  created_at : Nat
deriving DecidableEq, Repr

/-- One button press: who pressed, when, and whether the Discord message
update inside the `try` block succeeds. -/
structure ButtonPress where
  presser_id : Nat
  now : Nat
  edit_ok : Bool
deriving DecidableEq, Repr

/-- What a press produces: an ephemeral error reply leaving the original
message untouched, or an edit of the message to the toggled state. -/
inductive PressResult where
  | ephemeralError
  | edited (newExpanded : Bool)
deriving DecidableEq, Repr

/-- Seconds in `timedelta(days=1)`. -/
def secondsPerDay : Nat := 86400

/-- `PlayerEquipmentView.is_expired` (bot.py lines 49-51): strictly more
than 24 hours since creation. -/
def view_is_expired (v : ViewState) (now : Nat) : Bool :=
  decide (v.created_at + secondsPerDay < now)

/-- `PlayerEquipmentView.equipment_button` (bot.py lines 53-111): an
expired view answers with an ephemeral error; an unauthorized presser
answers with an ephemeral error; otherwise the toggled embed is built and
the message edited, and an exception in that block is caught and answered
with an ephemeral error, leaving the message unmodified. -/
def equipment_button (v : ViewState) (p : ButtonPress) : PressResult :=
  if view_is_expired v p.now then PressResult.ephemeralError
  else if p.presser_id != v.user_id then PressResult.ephemeralError
  else if p.edit_ok then PressResult.edited (!v.expanded)
  else PressResult.ephemeralError

/-! ## Online-count poller (src/bot.py, _update_online_status_task lines
1141-1163; note the def as written in bot.py is mis-indented — an
IndentationError — so the model below embeds the method the surrounding
code creates a task for in setup_hook) -/

/-- Modelled from the spec: the scraper's published "last known count"
slot that `get_online_players_count` reads (the scraper module is not in
the visible sources). -/
structure PollerState where
  last_known_count : Nat
deriving DecidableEq, Repr

/-- One poll cycle's outcome: a fetched count, or any failure in the cycle
body, which the `try`/`except` catches and logs. -/
inductive PollOutcome where
  | ok (count : Nat)
  | failure
deriving DecidableEq, Repr

/-- The loop body: a successful cycle publishes the new count, a failing
cycle keeps the previous value. -/
def poll_cycle (s : PollerState) : PollOutcome → PollerState
  | PollOutcome.ok n => PollerState.mk n
  | PollOutcome.failure => s

/-- The `asyncio.sleep(30)` interval between cycles, in seconds. -/
def poll_interval : Nat := 30

/-- Running the loop over a finite schedule of cycle outcomes — a total
function: no outcome terminates the loop. -/
def run_poller (s : PollerState) : List PollOutcome → PollerState
  | [] => s
  | o :: rest => run_poller (poll_cycle s o) rest

/-- Modelled from the spec: `get_online_players_count` always returns the
last known good value and never propagates an error. -/
def get_online_players_count (s : PollerState) : Nat := s.last_known_count


/-! ## Theorems -/

/-- C2: for every record produced by the Normalizer, `kd_ratio` equals the
source-provided value when the page supplies one, and otherwise equals
`kills / max(deaths, 1)` rounded to 2 decimal places. -/
theorem kd_ratio_law (p : ParsedFields) :
    (∀ k, p.kd_source = some k → (Scraper.normalize p).kd_ratio = k) ∧
    (p.kd_source = none →
      (Scraper.normalize p).kd_ratio =
        roundTo2 ((p.kills : Rat) / ((max p.deaths 1 : Nat) : Rat))) := by
  constructor
  · intro k h
    simp [Scraper.normalize, h]
  · intro h
    simp [Scraper.normalize, h]

/-- C2 witness: the spec's "Alice" scenario — kills = 150, deaths = 50, no
page K/D value — yields a derived ratio, which evaluates to 3. -/
theorem kd_ratio_law_witness :
    (Scraper.normalize (ParsedFields.mk "Alice" none true "Major" 0 none false
        150 50 none 0 none (Equipment.mk [] [] [] [] [] []))).kd_ratio =
      roundTo2 ((150 : Rat) / ((max 50 1 : Nat) : Rat)) ∧
    (Scraper.normalize (ParsedFields.mk "Alice" none true "Major" 0 none false
        150 50 none 0 none (Equipment.mk [] [] [] [] [] []))).kd_ratio = 3 :=
  ⟨(kd_ratio_law _).2 rfl, by
    have h := (kd_ratio_law (ParsedFields.mk "Alice" none true "Major" 0 none false
        150 50 none 0 none (Equipment.mk [] [] [] [] [] []))).2 rfl
    rw [h]
    norm_num [roundTo2]⟩

/-- C3: after normalization, every item of an `equipped_*` list also appears
in the corresponding owned list, even for inconsistent source data; the
capping keeps exactly the equipped items that are owned, so an equipped item
not found in the owned list is dropped. -/
theorem equipped_subset_owned (e : Equipment) :
    (∀ x, x ∈ (capEquipped e).equipped_turrets → x ∈ (capEquipped e).turrets) ∧
    (∀ x, x ∈ (capEquipped e).equipped_hulls → x ∈ (capEquipped e).hulls) ∧
    (∀ x, x ∈ (capEquipped e).equipped_protections →
      x ∈ (capEquipped e).protections) ∧
    (∀ x, x ∈ (capEquipped e).equipped_turrets ↔
      (x ∈ e.equipped_turrets ∧ x ∈ e.turrets)) := by
  refine ⟨?_, ?_, ?_, ?_⟩
  · intro x hx
    simp [capEquipped, List.mem_filter] at hx ⊢
    exact hx.2
  · intro x hx
    simp [capEquipped, List.mem_filter] at hx ⊢
    exact hx.2
  · intro x hx
    simp [capEquipped, List.mem_filter] at hx ⊢
    exact hx.2
  · intro x
    simp [capEquipped, List.mem_filter]

/-- C3 witness: a source page claiming "Rail M0" is equipped while only
"Smoky M3" is owned — the kept equipped item is in the owned list, and the
inconsistent item is dropped. -/
theorem equipped_subset_owned_witness :
    "Smoky M3" ∈ (capEquipped
      (Equipment.mk ["Smoky M3"] [] [] ["Rail M0", "Smoky M3"] [] [])).turrets ∧
    "Rail M0" ∉ (capEquipped
      (Equipment.mk ["Smoky M3"] [] [] ["Rail M0", "Smoky M3"] [] [])).equipped_turrets :=
  ⟨(equipped_subset_owned _).1 "Smoky M3" (by decide), by decide⟩

/-- C10: botstats never divides by zero — the average scraping latency is 0
when there are no successes and the (milliseconds, rounded) quotient by the
nonzero success count otherwise; the success rate is 0 when there are no
scrapes at all and the (rounded) percentage over the nonzero total
otherwise. -/
theorem botstats_no_div_by_zero (s : BotStats) :
    (s.scraping_successes = 0 → avg_scraping_latency s = 0) ∧
    (0 < s.scraping_successes →
      ((s.scraping_successes : Rat) ≠ 0 ∧
        avg_scraping_latency s =
          roundTo2 ((s.total_scraping_time / (s.scraping_successes : Rat)) * 1000))) ∧
    (s.scraping_successes + s.scraping_failures = 0 → success_rate s = 0) ∧
    (0 < s.scraping_successes + s.scraping_failures →
      (((s.scraping_successes + s.scraping_failures : Nat) : Rat) ≠ 0 ∧
        success_rate s =
          roundTo1 (((s.scraping_successes : Rat) /
            ((s.scraping_successes + s.scraping_failures : Nat) : Rat)) * 100))) := by
  refine ⟨?_, ?_, ?_, ?_⟩
  · intro h
    simp [avg_scraping_latency, h]
  · intro h
    refine ⟨?_, ?_⟩
    · exact_mod_cast Nat.pos_iff_ne_zero.mp h
    · simp [avg_scraping_latency, h]
  · intro h
    simp [success_rate, h]
  · intro h
    refine ⟨?_, ?_⟩
    · exact_mod_cast Nat.pos_iff_ne_zero.mp h
    · simp [success_rate, h]

/-- C10 witness: with no successes and no failures both statistics are 0;
with 4 successes, 1 failure and 2 seconds total time the guarded quotients
are taken. -/
theorem botstats_no_div_by_zero_witness :
    avg_scraping_latency (BotStats.mk 0 0 0) = 0 ∧
    success_rate (BotStats.mk 0 0 0) = 0 ∧
    avg_scraping_latency (BotStats.mk 4 1 2) =
      roundTo2 (((2 : Rat) / (4 : Rat)) * 1000) ∧
    success_rate (BotStats.mk 4 1 2) =
      roundTo1 (((4 : Rat) / (5 : Rat)) * 100) :=
  ⟨(botstats_no_div_by_zero (BotStats.mk 0 0 0)).1 rfl,
   (botstats_no_div_by_zero (BotStats.mk 0 0 0)).2.2.1 rfl,
   by
     have h := ((botstats_no_div_by_zero (BotStats.mk 4 1 2)).2.1 (by decide)).2
     simpa using h,
   by
     have h := ((botstats_no_div_by_zero (BotStats.mk 4 1 2)).2.2.2 (by decide)).2
     simpa using h⟩

/-- Helper: an all-transient attempt sequence exhausts any retry budget. -/
theorem fetchAttempts_all_transient (fuel : Nat) (rs : List AttemptResult)
    (h : ∀ r ∈ rs, r = AttemptResult.transient) :
    fetchAttempts fuel rs = PipelineOutcome.unavailable := by
  induction fuel generalizing rs with
  | zero => rfl
  | succ n ih =>
    cases rs with
    | nil => rfl
    | cons a rest =>
      have ha := h a (by simp)
      subst ha
      exact ih rest (fun r hr => h r (by simp [hr]))

/-- C1: at most one Fetch+Parse+Normalize pipeline execution is active per
(lowercased) key at any instant — every reachable deduplicator state has
duplicate-free in-flight keys, and a pipeline `start` for a key is possible
only while no execution for that key is in flight (concurrent lookups of
the key instead `hit` the cache or `join` the in-flight execution, issuing
no new upstream fetch). -/
theorem single_flight_invariant (s : DedupState) (h : DedupReachable s) :
    s.inflight.Nodup ∧
    ∀ k t, DedupStep s (DedupEvent.start k) t → k ∉ s.inflight := by
  constructor
  · induction h with
    | init => exact List.nodup_nil
    | step _ hstep ih => exact dedupStep_nodup hstep ih
  · intro k t hstep
    cases hstep
    assumption

/-- C1 witness: the state reached by starting one pipeline for key "alice"
from the empty state has duplicate-free in-flight keys. -/
theorem single_flight_invariant_witness :
    (DedupState.mk ["alice"] []).inflight.Nodup :=
  (single_flight_invariant (DedupState.mk ["alice"] [])
    (DedupReachable.step DedupReachable.init
      (DedupStep.start (by simp) (by simp)))).1

/-- C5: a not-found outcome is cached with the shorter TTL, so any lookup
before that TTL elapses is answered null from the cache with no new network
call; an unavailable outcome is never cached — storing it leaves the cache
unchanged, so after retries are exhausted by consecutive timeouts the
caller receives `unavailable` and no cache entry exists for the key (if
none existed before). -/
theorem notfound_cached_unavailable_never
    (cache : List (String × CacheEntry)) (k : String) (now : Nat) :
    notFoundTTL < cacheTTL ∧
    storeResult cache k now PipelineOutcome.unavailable = cache ∧
    (cacheFind cache k = none →
      cacheFind (storeResult cache k now PipelineOutcome.unavailable) k = none) ∧
    (∀ rs : List AttemptResult, (∀ r ∈ rs, r = AttemptResult.transient) →
      fetchAttempts (maxRetries + 1) rs = PipelineOutcome.unavailable) ∧
    (∀ t, t < now + notFoundTTL →
      cachedReply t (storeResult cache k now PipelineOutcome.notFound) k =
        some none) := by
  refine ⟨by decide, rfl, fun h => h, ?_, ?_⟩
  · intro rs h
    exact fetchAttempts_all_transient (maxRetries + 1) rs h
  · intro t ht
    simp [cachedReply, cacheLookup, cacheFind, storeResult, List.find?, ht]

/-- C5 witness: the spec's "Bob" scenario — three consecutive timeouts
yield `unavailable` and leave the (empty) cache without an entry for the
key — and the "ghost_user" scenario — a cached not-found is answered null
30 seconds later, within the short TTL. -/
theorem notfound_cached_unavailable_never_witness :
    cacheFind (storeResult [] "bob" 0 PipelineOutcome.unavailable) "bob" = none ∧
    fetchAttempts (maxRetries + 1)
      [AttemptResult.transient, AttemptResult.transient, AttemptResult.transient] =
      PipelineOutcome.unavailable ∧
    cachedReply 30 (storeResult [] "ghost_user" 0 PipelineOutcome.notFound)
      "ghost_user" = some none :=
  ⟨(notfound_cached_unavailable_never [] "bob" 0).2.2.1 rfl,
   (notfound_cached_unavailable_never [] "bob" 0).2.2.2.1 _ (by decide),
   (notfound_cached_unavailable_never [] "ghost_user" 0).2.2.2.2 30 (by decide)⟩

/-- C4 counterexample: in the compare command, a raised fetch error for
the first player (with the second found) is rendered with the very same
"Player Not Found" reply used for a missing player, not with the
transient-error reply — the two outcomes are conflated. -/
theorem compare_conflates_error_with_notfound :
    compare_gather_reply "bob" "alice" FetchResult.raised
        (FetchResult.ok samplePlayer) = Reply.notFoundMsg "bob" ∧
    Reply.notFoundMsg "bob" ≠ Reply.unavailableMsg :=
  ⟨rfl, by simp⟩

/-- C4 amended: the player command itself renders a null result as
"Player Not Found" and a thrown error as the distinct transient-error
reply, but the compare command converts a per-player fetch error into a
null result and renders it with the not-found replies, conflating the two
outcomes there. -/
theorem error_rendering_amended (u p1 p2 : String) (r : PlayerRecord) :
    player_command_reply u FetchResult.nullResult = Reply.notFoundMsg u ∧
    player_command_reply u FetchResult.raised = Reply.unavailableMsg ∧
    Reply.notFoundMsg u ≠ Reply.unavailableMsg ∧
    compare_gather_reply p1 p2 FetchResult.raised (FetchResult.ok r) =
      Reply.notFoundMsg p1 ∧
    compare_gather_reply p1 p2 (FetchResult.ok r) FetchResult.raised =
      Reply.notFoundMsg p2 ∧
    compare_gather_reply p1 p2 FetchResult.raised FetchResult.raised =
      Reply.bothNotFoundMsg p1 p2 ∧
    compare_gather_reply p1 p2 FetchResult.raised FetchResult.nullResult =
      Reply.bothNotFoundMsg p1 p2 :=
  ⟨rfl, rfl, by simp, rfl, rfl, rfl, rfl⟩

/-- C6: the poll-loop body as created in `setup_hook` — were its
definition not mis-indented — keeps the previous published value on a
failing cycle, a failing cycle never terminates the loop (running any
schedule is total, and appending a failing cycle leaves the final state
unchanged), and the inter-cycle interval is the fixed 30 seconds. -/
theorem poller_failure_keeps_value (s : PollerState)
    (outcomes : List PollOutcome) :
    get_online_players_count (poll_cycle s PollOutcome.failure) =
      get_online_players_count s ∧
    run_poller s (outcomes ++ [PollOutcome.failure]) = run_poller s outcomes ∧
    poll_interval = 30 := by
  refine ⟨rfl, ?_, rfl⟩
  induction outcomes generalizing s with
  | nil => rfl
  | cons o rest ih => exact ih (poll_cycle s o)

/-- C7: the compact (non-expanded) embed shows exactly
`equipped_turrets[0]` as the turret and `equipped_hulls[0]` as the hull,
at most the first three `equipped_protections` as paints, and omits the
line of any empty equipped list. -/
theorem compact_embed_active_equipment (e : Equipment) :
    turret_line e =
      (e.equipped_turrets.head?).map (fun x => "**Turret:** " ++ x) ∧
    hull_line e =
      (e.equipped_hulls.head?).map (fun x => "**Hull:** " ++ x) ∧
    (e.equipped_protections ≠ [] →
      paints_line e =
        some ("**Paints:** " ++
          String.intercalate ", " (e.equipped_protections.take 3))) ∧
    (e.equipped_protections.take 3).length ≤ 3 ∧
    (e.equipped_turrets = [] → turret_line e = none) ∧
    (e.equipped_hulls = [] → hull_line e = none) ∧
    (e.equipped_protections = [] → paints_line e = none) := by
  refine ⟨?_, ?_, ?_, ?_, ?_, ?_, ?_⟩
  · cases h : e.equipped_turrets <;> simp [turret_line, h]
  · cases h : e.equipped_hulls <;> simp [hull_line, h]
  · intro hne
    cases h : e.equipped_protections with
    | nil => exact absurd h hne
    | cons a rest => simp [paints_line, h]
  · simp [List.length_take]
  · intro h
    simp [turret_line, h]
  · intro h
    simp [hull_line, h]
  · intro h
    simp [paints_line, h]

/-- C7 witness: with four equipped protections the paints line shows the
first three; with nothing equipped every line is omitted. -/
theorem compact_embed_active_equipment_witness :
    paints_line (Equipment.mk [] [] [] [] []
        ["Holiday", "Inferno", "Picasso", "Premium"]) =
      some ("**Paints:** " ++ String.intercalate ", "
        ((["Holiday", "Inferno", "Picasso", "Premium"] : List String).take 3)) ∧
    paints_line (Equipment.mk [] [] [] [] [] []) = none :=
  ⟨(compact_embed_active_equipment _).2.2.1 (by simp),
   (compact_embed_active_equipment _).2.2.2.2.2.2 rfl⟩

/-- C8: whenever the two usernames' stripped forms are equal ignoring
case, the compare command answers with the "Invalid Comparison" reply and
issues no `get_player_data` fetch at all. -/
theorem same_user_no_fetch (u1 u2 : String)
    (h : pyLower (pyStrip u1) = pyLower (pyStrip u2)) :
    compare_precheck u1 u2 = (CompareAction.rejectedSameUser, 0) := by
  simp [compare_precheck, h]

/-- C8 witness: comparing "Alice " with "ALICE" is rejected without a
fetch. -/
theorem same_user_no_fetch_witness :
    compare_precheck "Alice " "ALICE" = (CompareAction.rejectedSameUser, 0) :=
  same_user_no_fetch "Alice " "ALICE" (by decide)

/-- C9 counterexample: an unexpired press by the invoking user still
answers with an ephemeral error (and leaves the message unedited) when the
message update raises — so an error reply does not occur exactly in the
expired-or-unauthorized cases. -/
theorem equipment_button_error_not_exact :
    equipment_button (ViewState.mk 1 false 0) (ButtonPress.mk 1 0 false) =
      PressResult.ephemeralError ∧
    view_is_expired (ViewState.mk 1 false 0) 0 = false ∧
    (ButtonPress.mk 1 0 false).presser_id = (ViewState.mk 1 false 0).user_id :=
  ⟨rfl, by decide, rfl⟩

/-- C9 amended: the press answers with an ephemeral error exactly when the
view is expired, the presser is not the invoking user, or the message
update fails; it edits the message to the toggled expansion state exactly
when none of these hold; and expiry is strictly more than 24 hours after
creation. -/
theorem equipment_button_amended (v : ViewState) (p : ButtonPress) :
    (equipment_button v p = PressResult.ephemeralError ↔
      (view_is_expired v p.now = true ∨ p.presser_id ≠ v.user_id ∨
        p.edit_ok = false)) ∧
    (equipment_button v p = PressResult.edited (!v.expanded) ↔
      (view_is_expired v p.now = false ∧ p.presser_id = v.user_id ∧
        p.edit_ok = true)) ∧
    (view_is_expired v p.now = true ↔ v.created_at + secondsPerDay < p.now) := by
  refine ⟨?_, ?_, by simp [view_is_expired]⟩
  · by_cases h1 : view_is_expired v p.now = true <;>
      by_cases h2 : p.presser_id = v.user_id <;>
      by_cases h3 : p.edit_ok = true <;>
      simp [equipment_button, h1, h2, h3]
  · by_cases h1 : view_is_expired v p.now = true <;>
      by_cases h2 : p.presser_id = v.user_id <;>
      by_cases h3 : p.edit_ok = true <;>
      simp [equipment_button, h1, h2, h3]
